import Mathlib

/-!
Shallow embedding of the MuseLoop core (src/museloop): the routing functions
of core/graph.py, the iteration controller of core/loop.py, the Director and
Critic agents, and the JSON-extraction helper of agents/base.py.

Python strings are modelled as `List Char`, floats as `ℚ` (the scores compared
here are small decimal literals, where rational comparison agrees with IEEE
comparison), JSON values as the inductive `JVal`, and fallible Python code as
`Except`.  The external collaborators (the LLM backend's `json.loads`, the
skill registry, capability execution) are oracle parameters, as the spec
treats them as opaque interfaces.
-/

namespace MuseLoop

/-- JSON values as produced by `json.loads` (Python floats modelled as `ℚ`). -/
inductive JVal where
  | null : JVal
  | bool (b : Bool) : JVal
  | num (q : ℚ) : JVal
  | str (s : String) : JVal
  | arr (elems : List JVal) : JVal
  | obj (fields : List (String × JVal)) : JVal

/-- A JSON object's field list (a Python dict with insertion order). -/
abbrev JObj := List (String × JVal)

/-- Python exceptions relevant to the agents' error handling. -/
inductive PyExc where
  | valueError : PyExc
  | typeError : PyExc
  | attributeError : PyExc
  | keyError : PyExc
deriving DecidableEq

/-- Python `str.strip()` whitespace predicate. -/
def isPySpace (c : Char) : Bool :=
  c == ' ' || c == '\t' || c == '\n' || c == '\r' || c == '\x0b' || c == '\x0c'

/-- Python `str.strip()` on a character list. -/
def pyStrip (l : List Char) : List Char :=
  ((l.dropWhile isPySpace).reverse.dropWhile isPySpace).reverse

/-- The backtick character (96). -/
def tick : Char := Char.ofNat 96

/-- The three-backtick fence marker of `_JSON_BLOCK_RE`. -/
def fenceMarker : List Char := [tick, tick, tick]

/-- The optional `json` tag allowed right after the opening fence. -/
def jsonTag : List Char := ['j', 's', 'o', 'n']

/-- All indices at which a three-backtick fence starts. -/
def fencePositions (text : List Char) : List Nat :=
  (List.range text.length).filter (fun i => (text.drop i).take 3 = fenceMarker)

/-- `text[a:b]` as in Python slicing. -/
def sliceChars (text : List Char) (a b : Nat) : List Char :=
  (text.drop a).take (b - a)

/-- `_JSON_BLOCK_RE.search(text)` followed by `match.group(1).strip()`:
the first fence that has a closing fence opens the block, a literal `json`
tag right after the opening fence is consumed, the block ends at the next
fence, and the contents are stripped (the regex's `\s*\n?` margins are
whitespace, so stripping the raw contents is equivalent). -/
def extractFence (text : List Char) : Option (List Char) :=
  let occ := fencePositions text
  match occ.find? (fun i => occ.any (fun j => i + 3 ≤ j)) with
  | none => none
  | some i =>
    let start := i + 3 + (if (text.drop (i + 3)).take 4 = jsonTag then 4 else 0)
    match occ.find? (fun j => start ≤ j) with
    | none => none
    | some j => some (pyStrip (sliceChars text start j))

/-- The opening brace character (123). -/
def lbrace : Char := Char.ofNat 123

/-- The closing brace character (125). -/
def rbrace : Char := Char.ofNat 125

/-- Python `text.find("\x7b")` (as `Option` instead of `-1`). -/
def firstLBrace (text : List Char) : Option Nat :=
  List.findIdx? (fun c => c == lbrace) text

/-- Python `text.rfind("\x7d")` (as `Option` instead of `-1`). -/
def lastRBrace (text : List Char) : Option Nat :=
  match List.findIdx? (fun c => c == rbrace) text.reverse with
  | none => none
  | some k => some (text.length - 1 - k)

/-- Strategy (c) of `_parse_json_response`: the substring from the first
`\x7b` to the last `\x7d`, when the first strictly precedes the last. -/
def tryBraceSlice (text : List Char) : Option (List Char) :=
  match firstLBrace text, lastRBrace text with
  | some bs, some be => if bs < be then some (sliceChars text bs (be + 1)) else none
  | _, _ => none

/-- The `json.JSONDecodeError(msg, doc, pos)` raised when every strategy
fails: `doc` is the 200-character preview `text[:200]` (the message string is
diagnostic and omitted). -/
structure JsonDecodeErr where
  doc : List Char
  pos : Nat
deriving DecidableEq

/-- `BaseAgent._parse_json_response` (agents/base.py): try a direct parse of
the stripped response, then the first fenced code block, then the first-`\x7b`
to-last-`\x7d` slice; the first success wins, and if all fail the call raises
`json.JSONDecodeError` carrying `text[:200]`.  `loads` is the external
`json.loads` oracle. -/
def parse_json_response (loads : List Char → Option JVal) (response : List Char) :
    Except JsonDecodeErr JVal :=
  let text := pyStrip response
  match loads text with
  | some v => Except.ok v
  | none =>
    match (extractFence text).bind loads with
    | some v => Except.ok v
    | none =>
      match (tryBraceSlice text).bind loads with
      | some v => Except.ok v
      | none => Except.error ⟨text.take 200, 0⟩

/-- One plan entry as built by the Script agent: `task.get("skill", "")` and
`task.get("step")` are the fields the Director's control path reads; the
prompt/params payload is opaque to the claims and carried as a string. -/
structure Task where
  skill : String
  step : Nat
  payload : String
deriving DecidableEq

/-- One generated-asset record `\x7btype, path, step, metadata\x7d`; the Loop
adds the `iteration` tag when accumulating across passes. -/
structure Asset where
  typ : String
  path : String
  step : Nat
  metadata : List (String × String) := []
  iteration : Option Nat := none
deriving DecidableEq

/-- The critique dict as read by the Loop and routing functions: per the data
model, `score` is a float and `pass` a bool, each possibly absent
(`critique.get(..., default)`). -/
structure Critique where
  score : Option ℚ
  pass : Option Bool
deriving DecidableEq

/-- A resolved human-approval record. -/
structure Approval where
  approved : Bool
  notes : String
deriving DecidableEq

/-- The shared `LoopState` TypedDict of core/state.py.  `brief` and `memory`
payloads are opaque to the claims; `messages` is the diagnostic trace log. -/
structure LoopState where
  brief : String
  iteration : Nat
  plan : List Task
  assets : List Asset
  critique : Critique
  messages : List String
  memory : List (String × String)
  status : String
  director_retries : Nat
  human_approval : Option Approval
  last_error : String
deriving DecidableEq

/-- The `langgraph` `END` sentinel. -/
def END : String := "__end__"

/-- `after_director` (core/graph.py): retry the Director once when it produced
no assets, `if not assets and retries == 1`. -/
def after_director (state : LoopState) : String :=
  if state.assets = [] ∧ state.director_retries = 1 then "director" else "critic"

/-- `after_critic` (core/graph.py): route to human approval when no approval
has been resolved and the score is strictly between 0.5 and 0.9, with the
score read as `critique.get("score", 0.0)`. -/
def after_critic (state : LoopState) : String :=
  let score := state.critique.score.getD 0
  if state.human_approval = none ∧ (1/2 : ℚ) < score ∧ score < 9/10 then
    "human_approval"
  else END

/-- The outcome of one capability execution inside `DirectorAgent`'s fan-out:
`_execute_task` either returns an asset record or raises (skill failure),
and `asyncio.gather(..., return_exceptions=True)` carries either through. -/
inductive TaskResult where
  | exc (msg : String) : TaskResult
  | ok (a : Asset) : TaskResult

/-- The partial state update returned by `DirectorAgent.run`:
`director_retries = none` models the key being absent from the returned dict
(so the merge leaves the previous value).  The diagnostic `messages` entry is
omitted. -/
structure DirectorUpdate where
  assets : List Asset
  status : String
  director_retries : Option Nat
deriving DecidableEq

/-- `DirectorAgent.run` (agents/director.py), with the skill registry
(`registry.has`) and the capability executions as oracles: an empty plan
returns `\x7bassets: [], status: "critiquing"\x7d` with no retry field;
otherwise the runnable tasks are the plan entries whose skill the registry
has, each execution result that is an exception becomes a log line, each
asset result is appended, and `director_retries` is set to
`state.get("director_retries", 0) + (0 if assets else 1)`. -/
def directorRun (hasSkill : String → Bool) (exec : Task → TaskResult)
    (plan : List Task) (prevRetries : Nat) : DirectorUpdate :=
  if plan = [] then
    { assets := [], status := "critiquing", director_retries := none }
  else
    let tasksToRun := plan.filter (fun t => hasSkill t.skill)
    let results := tasksToRun.map exec
    let assets := results.filterMap (fun r =>
      match r with
      | TaskResult.ok a => some a
      | TaskResult.exc _ => none)
    { assets := assets,
      status := "critiquing",
      director_retries := some (prevRetries + (if assets = [] then 1 else 0)) }

/-- LangGraph's merge of a Director partial update into the running state:
present keys overwrite, the absent `director_retries` key keeps the previous
value (the update's diagnostic `messages` append is omitted). -/
def applyDirectorUpdate (st : LoopState) (u : DirectorUpdate) : LoopState :=
  { st with
    assets := u.assets,
    status := u.status,
    director_retries := u.director_retries.getD st.director_retries }

/-- `dict.get(key, default)` field lookup on a JSON object. -/
def jLookup (fields : JObj) (key : String) (default : JVal) : JVal :=
  (List.lookup key fields).getD default

/-- Python dict assignment `d[key] = v`: overwrite in place when the key
exists, else append (insertion order). -/
def jSet (fields : JObj) (key : String) (v : JVal) : JObj :=
  if fields.any (fun p => p.1 = key) then
    fields.map (fun p => if p.1 = key then (key, v) else p)
  else fields ++ [(key, v)]

/-- The `ℚ` value of a list of decimal digits. -/
def decimalVal (l : List Char) : ℚ :=
  l.foldl (fun acc c => acc * 10 + ((c.toNat - 48 : ℕ) : ℚ)) 0

/-- Python `float(s)` on a string, modelled for plain decimal literals
(optional sign, digits, optional fraction), raising `ValueError` (`none`)
otherwise. -/
def pyFloatOfChars (s : List Char) : Option ℚ :=
  let cs := pyStrip s
  let signBody : ℚ × List Char :=
    match cs with
    | [] => (1, [])
    | c :: rest =>
      if c = '-' then (-1, rest) else if c = '+' then (1, rest) else (1, c :: rest)
  match signBody.2.splitOn '.' with
  | [ip] =>
    if ip ≠ [] ∧ ip.all Char.isDigit then some (signBody.1 * decimalVal ip) else none
  | [ip, fp] =>
    if ip ++ fp ≠ [] ∧ ip.all Char.isDigit ∧ fp.all Char.isDigit then
      some (signBody.1 * (decimalVal ip + decimalVal fp / (10 : ℚ) ^ fp.length))
    else none
  | _ => none

/-- Python `float(v)` on a JSON value: numbers pass through, bools coerce to
1/0, numeric strings parse (`ValueError` otherwise), and `None`, lists and
dicts raise `TypeError`. -/
def pyFloat : JVal → Except PyExc ℚ
  | JVal.num q => Except.ok q
  | JVal.bool b => Except.ok (if b then 1 else 0)
  | JVal.str s =>
    match pyFloatOfChars s.toList with
    | some q => Except.ok q
    | none => Except.error PyExc.valueError
  | _ => Except.error PyExc.typeError

/-- The exceptions named in `CriticAgent.run`'s except clause:
`(json.JSONDecodeError, ValueError, KeyError)` — `TypeError` and
`AttributeError` are not caught. -/
def criticCatches : PyExc → Bool
  | PyExc.valueError => true
  | PyExc.keyError => true
  | _ => false

/-- The fixed critique returned by `CriticAgent.run` when `assets` is empty. -/
def noAssetsCritique : JObj :=
  [("score", JVal.num 0),
   ("pass", JVal.bool false),
   ("feedback", JVal.str ("No assets were generated.")),
   ("strengths", JVal.arr []),
   ("improvements", JVal.arr [JVal.str ("Generate at least the required assets")]),
   ("priority_fixes", JVal.arr [JVal.str ("Ensure skills are available and configured")])]

/-- The default critique of the except branch of `CriticAgent.run` (the
Python feedback string also embeds the exception text). -/
def errorCritique : JObj :=
  [("score", JVal.num (1/2)),
   ("pass", JVal.bool false),
   ("feedback", JVal.str ("Evaluation error. Defaulting to revision.")),
   ("strengths", JVal.arr []),
   ("improvements", JVal.arr [JVal.str ("Fix evaluation pipeline")]),
   ("priority_fixes", JVal.arr [])]

/-- The try/except body of `CriticAgent.run` for a non-empty asset list:
parse the model response (`json.JSONDecodeError`, a `ValueError`, is caught),
read `result.get("score", 0.0)` (an `AttributeError` on a non-dict result
propagates), convert with `float(...)` (`ValueError` is caught, `TypeError`
propagates), then overwrite `result["score"]` and compute
`result["pass"] = score >= threshold` itself. -/
def criticProcess (loads : List Char → Option JVal) (threshold : ℚ)
    (response : List Char) : Except PyExc JObj :=
  match parse_json_response loads response with
  | Except.error _ => Except.ok errorCritique
  | Except.ok v =>
    match v with
    | JVal.obj fields =>
      match pyFloat (jLookup fields ("score") (JVal.num 0)) with
      | Except.error e =>
        if criticCatches e then Except.ok errorCritique else Except.error e
      | Except.ok score =>
        Except.ok (jSet (jSet fields ("score") (JVal.num score)) ("pass")
          (JVal.bool (decide (threshold ≤ score))))
    | _ => Except.error PyExc.attributeError

/-- The value of `CriticAgent.run`: the critique dict on the normal paths, an
uncaught exception otherwise, plus whether the LLM backend was invoked. -/
structure CriticResult where
  outcome : Except PyExc JObj
  llmCalled : Bool

/-- `CriticAgent.run` (agents/critic.py): an empty asset list short-circuits
to the fixed 0.0/fail critique without calling the backend; otherwise the
backend is called once and its response processed by `criticProcess`.
`llmResponse` is the backend's reply, `loads` the `json.loads` oracle. -/
def criticRun (loads : List Char → Option JVal) (threshold : ℚ)
    (assets : List Asset) (llmResponse : List Char) : CriticResult :=
  if assets = [] then
    { outcome := Except.ok noAssetsCritique, llmCalled := false }
  else
    { outcome := criticProcess loads threshold llmResponse, llmCalled := true }

/-- What one `graph.ainvoke` attempt yields from the Loop's point of view:
`asyncio.TimeoutError`, a non-dict result, or the pass's final state dict. -/
inductive GraphOutcome where
  | timeout : GraphOutcome
  | invalid : GraphOutcome
  | result (r : LoopState) : GraphOutcome

/-- The Loop's own variables alongside the running state: `best_score`,
`best_iteration`, the message-log-free `best_state` snapshot, and the
accumulated `all_assets` list. -/
structure LoopAcc where
  state : LoopState
  bestScore : ℚ
  bestIteration : Nat
  bestState : Option LoopState
  allAssets : List Asset
deriving DecidableEq

/-- Tag each of a pass's assets with its iteration number
(`asset["iteration"] = i + 1`). -/
def tagAssets (i : Nat) (assets : List Asset) : List Asset :=
  assets.map (fun a => { a with iteration := some i })

/-- One body execution of `run_loop`'s `for i in range(max_iterations)` loop
(core/loop.py), for 0-based `i`: set `iteration := i+1`, reset the
per-iteration fields, then either `continue` (timeout, invalid result) —
touching neither the accumulated assets nor the rest of the state — or merge
the pass result: tag and accumulate its assets, overwrite the state with the
result (assets widened to the accumulated list), update the best-by-score
tracking, and report whether `critique.get("pass", False)` stops the loop.
The git commit and progress events are external side effects, omitted. -/
def loopStep (i : Nat) (outcome : GraphOutcome) (acc : LoopAcc) : LoopAcc × Bool :=
  let st0 := { acc.state with
    iteration := i + 1, director_retries := 0, human_approval := none }
  match outcome with
  | GraphOutcome.timeout => ({ acc with state := st0 }, false)
  | GraphOutcome.invalid => ({ acc with state := st0 }, false)
  | GraphOutcome.result r =>
    let iterAssets := tagAssets (i + 1) r.assets
    let allAssets := acc.allAssets ++ iterAssets
    let st1 := { r with assets := allAssets }
    let score := st1.critique.score.getD 0
    let acc' :=
      if acc.bestScore < score then
        { state := st1, bestScore := score, bestIteration := i + 1,
          bestState := some { st1 with messages := [] }, allAssets := allAssets }
      else
        { acc with state := st1, allAssets := allAssets }
    (acc', st1.critique.pass.getD false)

/-- The iteration loop of `run_loop` from iteration index `i`, driven by one
`GraphOutcome` per remaining iteration (the list length plays the role of the
remaining `max_iterations` budget); stops early when a pass's critique
passes. -/
def runLoopFrom : Nat → List GraphOutcome → LoopAcc → LoopAcc
  | _, [], acc => acc
  | i, o :: rest, acc =>
    match loopStep i o acc with
    | (acc', stop) => if stop then acc' else runLoopFrom (i + 1) rest acc'

/-- The initial shared state built by `run_loop` before the loop starts. -/
def initLoopState (brief : String) : LoopState :=
  { brief := brief, iteration := 0, plan := [], assets := [],
    critique := { score := none, pass := none }, messages := [], memory := [],
    status := "planning", director_retries := 0, human_approval := none,
    last_error := "" }

/-- `run_loop`'s loop variables at entry: `best_score = 0.0`,
`best_iteration = 0`, no best snapshot, empty accumulated asset list. -/
def initAcc (brief : String) : LoopAcc :=
  { state := initLoopState brief, bestScore := 0, bestIteration := 0,
    bestState := none, allAssets := [] }

/-- `run_loop`'s iteration phase end to end: start from the initial state and
fold the per-iteration graph outcomes. -/
def runLoop (brief : String) (outcomes : List GraphOutcome) : LoopAcc :=
  runLoopFrom 0 outcomes (initAcc brief)

/-- A pass result whose critique carries the given score and a false pass
flag (what the graph returns when the Critic scores below threshold). -/
def mkResult (brief : String) (q : ℚ) : LoopState :=
  { initLoopState brief with critique := { score := some q, pass := some false } }

/-- One state of `DirectorAgent`'s bounded fan-out over the runnable plan
steps: tasks not yet started, tasks currently inside the
`async with self._semaphore` block (in-flight capability invocations), and
finished tasks. -/
structure FanoutState where
  pending : Nat
  running : Nat
  done : Nat
deriving DecidableEq

/-- The event-loop steps of the fan-out under `asyncio.Semaphore(limit)`
(agents/director.py `_execute_task`): a pending task may enter the semaphore
block only while fewer than `limit` tasks hold it; a running task may finish
and release. -/
inductive FanoutStep (limit : Nat) : FanoutState → FanoutState → Prop
  | start (p r d : Nat) : r < limit → 0 < p →
      FanoutStep limit ⟨p, r, d⟩ ⟨p - 1, r + 1, d⟩
  | finish (p r d : Nat) : 0 < r →
      FanoutStep limit ⟨p, r, d⟩ ⟨p, r - 1, d + 1⟩

/-- Reachability under the fan-out's interleaving semantics. -/
inductive FanoutReach (limit : Nat) (init : FanoutState) : FanoutState → Prop
  | refl : FanoutReach limit init init
  | step {s t : FanoutState} :
      FanoutReach limit init s → FanoutStep limit s t → FanoutReach limit init t

/-- C1: `after_director` returns "director" exactly when the state's assets
list is empty and `director_retries` equals 1, and returns "critic" in every
other case — non-empty assets with any retries value, and empty assets with
retries 0 or at least 2. -/
theorem after_director_routing (st : LoopState) :
    (after_director st = "director" ↔ st.assets = [] ∧ st.director_retries = 1) ∧
    (st.assets ≠ [] → after_director st = "critic") ∧
    (st.assets = [] → st.director_retries = 0 ∨ 2 ≤ st.director_retries →
      after_director st = "critic") := by
  unfold after_director
  by_cases hc : st.assets = [] ∧ st.director_retries = 1
  · rw [if_pos hc]
    exact ⟨⟨fun _ => hc, fun _ => rfl⟩, fun hne => absurd hc.1 hne,
      fun _ h2 => absurd hc.2 (by omega)⟩
  · rw [if_neg hc]
    exact ⟨⟨fun h => absurd h (by decide), fun h => absurd h hc⟩,
      fun _ => rfl, fun _ _ => rfl⟩

/-- Concrete instance of `after_director_routing`: empty assets with one
recorded retry route back to the Director. -/
theorem after_director_routing_witness :
    after_director { initLoopState ("b") with director_retries := 1 } = "director" :=
  (after_director_routing _).1.mpr ⟨rfl, rfl⟩

/-- C4: `after_critic` routes to the human-approval node iff no approval has
been resolved and the critique score lies strictly between 0.5 and 0.9; in
every other case (approval resolved, score out of the open band, or score
absent, which reads as 0.0) it terminates the pass. -/
theorem after_critic_routing (st : LoopState) :
    (after_critic st = "human_approval" ↔
      st.human_approval = none ∧ (1/2 : ℚ) < st.critique.score.getD 0 ∧
        st.critique.score.getD 0 < 9/10) ∧
    (after_critic st = END ↔
      ¬(st.human_approval = none ∧ (1/2 : ℚ) < st.critique.score.getD 0 ∧
        st.critique.score.getD 0 < 9/10)) ∧
    (st.critique.score = none → after_critic st = END) := by
  unfold after_critic
  by_cases hc : st.human_approval = none ∧ (1/2 : ℚ) < st.critique.score.getD 0 ∧
      st.critique.score.getD 0 < 9/10
  · rw [if_pos hc]
    refine ⟨⟨fun _ => hc, fun _ => rfl⟩,
      ⟨fun h => absurd h (by decide), fun h => absurd hc h⟩, fun hs => ?_⟩
    rw [hs] at hc
    exact absurd hc.2.1 (by norm_num [Option.getD_none])
  · rw [if_neg hc]
    exact ⟨⟨fun h => absurd h (by decide), fun h => absurd h hc⟩,
      ⟨fun _ => hc, fun _ => rfl⟩, fun _ => rfl⟩

/-- A state whose critique score 0.7 is in the borderline band and whose
approval is unresolved. -/
def stBorderline : LoopState :=
  { initLoopState ("b") with critique := { score := some (7/10), pass := some false } }

/-- Concrete instance of `after_critic_routing`: an unresolved approval and a
borderline score of 0.7 route to human approval. -/
theorem after_critic_routing_witness :
    after_critic stBorderline = "human_approval" :=
  (after_critic_routing stBorderline).1.mpr
    ⟨rfl, by norm_num [stBorderline, initLoopState], by norm_num [stBorderline, initLoopState]⟩

/-- C3: a timed-out pass is discarded: the loop body leaves the accumulated
all-iterations asset list (and its length) unchanged, does not stop the
loop, and changes the running state only by the per-iteration updates
(iteration number and the `director_retries`/`human_approval` resets). -/
theorem loop_timeout_discards (i : Nat) (acc : LoopAcc) :
    loopStep i GraphOutcome.timeout acc =
      ({ acc with state := { acc.state with
          iteration := i + 1, director_retries := 0, human_approval := none } },
        false) ∧
    (loopStep i GraphOutcome.timeout acc).1.allAssets.length =
      acc.allAssets.length :=
  ⟨rfl, rfl⟩

/-- C8: the Loop's best tracking updates the recorded best score and
iteration index exactly when the pass's critique score strictly exceeds the
running maximum, which starts at 0.0; and a 3-iteration run with scores
[0.3, 0.9, 0.1] ends with `best_iteration = 2` and `best_score = 0.9`. -/
theorem loop_best_tracking (i : Nat) (acc : LoopAcc) (r : LoopState) :
    ((loopStep i (GraphOutcome.result r) acc).1.bestScore =
      if acc.bestScore < r.critique.score.getD 0 then r.critique.score.getD 0
      else acc.bestScore) ∧
    ((loopStep i (GraphOutcome.result r) acc).1.bestIteration =
      if acc.bestScore < r.critique.score.getD 0 then i + 1
      else acc.bestIteration) ∧
    (initAcc ("b")).bestScore = 0 ∧
    (runLoop ("b") [GraphOutcome.result (mkResult ("b") (3/10)),
      GraphOutcome.result (mkResult ("b") (9/10)),
      GraphOutcome.result (mkResult ("b") (1/10))]).bestIteration = 2 ∧
    (runLoop ("b") [GraphOutcome.result (mkResult ("b") (3/10)),
      GraphOutcome.result (mkResult ("b") (9/10)),
      GraphOutcome.result (mkResult ("b") (1/10))]).bestScore = 9/10 := by
  refine ⟨?_, ?_, rfl, ?_, ?_⟩
  · by_cases h : acc.bestScore < r.critique.score.getD 0 <;> simp [loopStep, h]
  · by_cases h : acc.bestScore < r.critique.score.getD 0 <;> simp [loopStep, h]
  · norm_num [runLoop, runLoopFrom, loopStep, initAcc, initLoopState, mkResult, tagAssets]
  · norm_num [runLoop, runLoopFrom, loopStep, initAcc, initLoopState, mkResult, tagAssets]

/-- A registry oracle that has no skills. -/
def noSkills : String → Bool := fun _ => false

/-- A capability oracle whose every execution raises. -/
def execFails : Task → TaskResult := fun _ => TaskResult.exc ("boom")

/-- A sample plan entry. -/
def task1 : Task := { skill := "image_gen", step := 1, payload := "hero shot" }

/-- C2 counterexample: on an empty plan, `DirectorAgent.run` produces zero
assets yet omits `director_retries` from the returned update (leaving the
previous value 0) instead of setting it to the previous value plus 1; so the
claim's "previous + 1 whenever the pass produced zero assets" fails. -/
theorem director_retries_claim_counterexample :
    (directorRun noSkills execFails [] 0).assets = [] ∧
    (directorRun noSkills execFails [] 0).director_retries = none ∧
    (directorRun noSkills execFails [] 0).director_retries ≠ some (0 + 1) :=
  ⟨rfl, rfl, by decide⟩

/-- C2 (amended): when the plan is non-empty, the update returned by
`DirectorAgent.run` sets `director_retries` to the previous value plus 1 when
and only when the pass produced zero assets, and otherwise to the unchanged
previous value; when the plan is empty, the update omits `director_retries`
(so the merge leaves the previous value); the counter recorded by the update
is never below the previous value. -/
theorem director_retries_update (hs : String → Bool) (ex : Task → TaskResult)
    (plan : List Task) (prev : Nat) :
    (plan ≠ [] →
      (directorRun hs ex plan prev).director_retries =
        some (prev + if (directorRun hs ex plan prev).assets = [] then 1 else 0)) ∧
    (plan = [] → (directorRun hs ex plan prev).director_retries = none) ∧
    (∀ r, (directorRun hs ex plan prev).director_retries = some r → prev ≤ r) := by
  unfold directorRun
  by_cases hp : plan = []
  · rw [if_pos hp]
    exact ⟨fun h => absurd hp h, fun _ => rfl, fun r hr => absurd hr (by simp)⟩
  · rw [if_neg hp]
    refine ⟨fun _ => rfl, fun h => absurd h hp, fun r hr => ?_⟩
    simp only [Option.some.injEq] at hr
    omega

/-- Concrete instance of `director_retries_update`: a one-task plan whose
skill is unavailable yields zero assets and a retry counter of 0 + 1. -/
theorem director_retries_update_witness :
    (directorRun noSkills execFails [task1] 0).director_retries =
      some (0 + if (directorRun noSkills execFails [task1] 0).assets = [] then 1 else 0) :=
  (director_retries_update noSkills execFails [task1] 0).1 (by decide)

/-- C10: on an empty plan, `DirectorAgent.run` returns an update with an
empty assets list and no `director_retries` field, so after the per-iteration
reset to 0 the merged state still has `director_retries = 0` and
`after_director` routes the empty-plan pass straight to "critic" even though
it produced zero assets. -/
theorem director_empty_plan_no_retry (hs : String → Bool) (ex : Task → TaskResult)
    (prev : Nat) (st : LoopState) :
    (directorRun hs ex [] prev).assets = [] ∧
    (directorRun hs ex [] prev).director_retries = none ∧
    (st.director_retries = 0 →
      after_director (applyDirectorUpdate st (directorRun hs ex [] prev)) = "critic") := by
  refine ⟨rfl, rfl, fun h0 => ?_⟩
  simp [after_director, applyDirectorUpdate, directorRun, h0]

/-- Concrete instance of `director_empty_plan_no_retry`: from the initial
state (retry counter 0), an empty-plan pass goes to the Critic. -/
theorem director_empty_plan_no_retry_witness :
    after_director (applyDirectorUpdate (initLoopState ("b"))
      (directorRun noSkills execFails [] 0)) = "critic" :=
  (director_empty_plan_no_retry noSkills execFails 0 (initLoopState ("b"))).2.2 rfl

/-- C5: with an empty assets list, `CriticAgent.run` returns the fixed
critique with score 0.0 and pass false, and does so without invoking the
language-model backend: the result is one constant, independent of the
`json.loads` oracle and of any backend response. -/
theorem critic_empty_assets_short_circuit (loads : List Char → Option JVal)
    (threshold : ℚ) (resp : List Char) :
    criticRun loads threshold [] resp =
      { outcome := Except.ok noAssetsCritique, llmCalled := false } ∧
    List.lookup ("score") noAssetsCritique = some (JVal.num 0) ∧
    List.lookup ("pass") noAssetsCritique = some (JVal.bool false) :=
  ⟨rfl, rfl, rfl⟩

/-- The text of a model reply whose JSON object carries a null score. -/
def scoreNullText : List Char := ("\x7b\"score\": null\x7d").toList

/-- A `json.loads` oracle mapping that reply to `\x7b"score": None\x7d`. -/
def loadsScoreNull : List Char → Option JVal :=
  fun s => if s = scoreNullText then some (JVal.obj [("score", JVal.null)]) else none

/-- A sample generated asset. -/
def imageAsset : Asset := { typ := "image", path := "a.png", step := 1 }

/-- C6: evaluation at the failing input.  With one asset and a model response
parsing to `\x7b"score": null\x7d`, `float(None)` raises `TypeError`, which
the except clause `(json.JSONDecodeError, ValueError, KeyError)` does not
catch: `CriticAgent.run` propagates the exception instead of returning the
score-0.5/fail critique the claim requires for every value-conversion
failure. -/
theorem critic_null_score_uncaught_typeerror :
    (criticRun loadsScoreNull (7/10) [imageAsset] scoreNullText).outcome =
      Except.error PyExc.typeError ∧
    (criticRun loadsScoreNull (7/10) [imageAsset] scoreNullText).llmCalled = true :=
  ⟨rfl, rfl⟩

/-- C7: the JSON-extraction helper tries the three strategies in order —
direct parse of the stripped response, parse of the first fenced block's
contents, parse of the first-to-last brace slice — the first success
determines the result, and when all three fail it fails with an error
carrying the at-most-200-character preview `text[:200]`. -/
theorem parse_json_strategy_order (loads : List Char → Option JVal)
    (resp : List Char) :
    (∀ v, loads (pyStrip resp) = some v →
      parse_json_response loads resp = Except.ok v) ∧
    (∀ inner v, loads (pyStrip resp) = none →
      extractFence (pyStrip resp) = some inner → loads inner = some v →
      parse_json_response loads resp = Except.ok v) ∧
    (∀ sl v, loads (pyStrip resp) = none →
      (extractFence (pyStrip resp)).bind loads = none →
      tryBraceSlice (pyStrip resp) = some sl → loads sl = some v →
      parse_json_response loads resp = Except.ok v) ∧
    (loads (pyStrip resp) = none →
      (extractFence (pyStrip resp)).bind loads = none →
      (tryBraceSlice (pyStrip resp)).bind loads = none →
      parse_json_response loads resp = Except.error ⟨(pyStrip resp).take 200, 0⟩ ∧
      ((pyStrip resp).take 200).length ≤ 200) := by
  refine ⟨?_, ?_, ?_, ?_⟩
  · intro v hv
    simp [parse_json_response, hv]
  · intro inner v h1 h2 h3
    simp [parse_json_response, h1, h2, h3]
  · intro sl v h1 h2 h3 h4
    simp [parse_json_response, h1, h2, h3, h4]
  · intro h1 h2 h3
    exact ⟨by simp [parse_json_response, h1, h2, h3],
      le_trans (List.length_take_le 200 (pyStrip resp)) (le_refl 200)⟩

/-- A `json.loads` oracle that never parses. -/
def loadsNone : List Char → Option JVal := fun _ => none

/-- Concrete instance of `parse_json_strategy_order`: on a response with no
JSON, no fence and no braces, all three strategies fail and the error
carries the bounded preview. -/
theorem parse_json_strategy_order_witness :
    parse_json_response loadsNone (("hello").toList) =
      Except.error ⟨(pyStrip (("hello").toList)).take 200, 0⟩ ∧
    ((pyStrip (("hello").toList)).take 200).length ≤ 200 :=
  (parse_json_strategy_order loadsNone (("hello").toList)).2.2.2 rfl rfl rfl

/-- C9: under the semaphore semantics of the Director's fan-out, every state
reachable from `p` pending tasks and nothing in flight keeps the number of
simultaneously executing capability invocations at or below the concurrency
limit — in particular for 10 plan steps under the default limit of 4. -/
theorem fanout_bounded (limit p : Nat) (s : FanoutState)
    (h : FanoutReach limit ⟨p, 0, 0⟩ s) : s.running ≤ limit := by
  induction h with
  | refl => exact Nat.zero_le _
  | step hr hs ih =>
    cases hs with
    | start p' r d hrl hp => exact hrl
    | finish p' r d hr0 => exact Nat.le_trans (Nat.sub_le _ _) ih

/-- Concrete instance of `fanout_bounded`: with 10 tasks and limit 4, the
state with 4 invocations in flight is reachable and saturates the bound. -/
theorem fanout_bounded_witness :
    FanoutReach 4 ⟨10, 0, 0⟩ ⟨6, 4, 0⟩ ∧ (⟨6, 4, 0⟩ : FanoutState).running ≤ 4 := by
  have h1 : FanoutStep 4 ⟨10, 0, 0⟩ ⟨9, 1, 0⟩ :=
    FanoutStep.start 10 0 0 (by decide) (by decide)
  have h2 : FanoutStep 4 ⟨9, 1, 0⟩ ⟨8, 2, 0⟩ :=
    FanoutStep.start 9 1 0 (by decide) (by decide)
  have h3 : FanoutStep 4 ⟨8, 2, 0⟩ ⟨7, 3, 0⟩ :=
    FanoutStep.start 8 2 0 (by decide) (by decide)
  have h4 : FanoutStep 4 ⟨7, 3, 0⟩ ⟨6, 4, 0⟩ :=
    FanoutStep.start 7 3 0 (by decide) (by decide)
  have hr : FanoutReach 4 ⟨10, 0, 0⟩ ⟨6, 4, 0⟩ :=
    FanoutReach.step (FanoutReach.step (FanoutReach.step
      (FanoutReach.step FanoutReach.refl h1) h2) h3) h4
  exact ⟨hr, fanout_bounded 4 10 ⟨6, 4, 0⟩ hr⟩

end MuseLoop
